import Mathlib

/-!
Verification of the durian-web credential-manager client.

This file shallowly embeds the client-side sync/cache/search code of the
repository: the Tauri API wrappers (`src/libs/tauri.ts`), the batched record
projector (`decryptAccounts`), the query component's `loadFromCache` /
`handleQuery` / `handleSearch` / `save` / `handleDelete`, the legacy query
component's `requestQuery` / `handleQuery` / `requestUpdate`, and the insert
forms' submit handlers.  External collaborators (the Tauri `invoke` bridge,
the HTTP client, the pinyin transliteration library, the locale comparison)
are modelled as explicit oracle parameters, and the observable effects the
specification talks about (remote calls issued, cache writes, forced
resyncs, error messages) are returned as data.
-/

/- ===== JavaScript string primitives used by the embedded code ===== -/

/-- JavaScript `String.prototype.toLowerCase`, modelled character-wise. -/
def jsToLower (s : String) : String := String.mk (s.data.map Char.toLower)

/-- JavaScript `String.prototype.trim`: strip whitespace on both ends. -/
def jsTrim (s : String) : String :=
  String.mk (((s.data.dropWhile Char.isWhitespace).reverse.dropWhile Char.isWhitespace).reverse)

/-- Falsiness of the trimmed keyword, i.e. the JavaScript test `!keyword.trim()`. -/
def jsIsBlank (s : String) : Bool := (jsTrim s).data.isEmpty

/-- Whether the character list `s` starts with the character list `pat`. -/
def startsWithL : List Char → List Char → Bool
  | _, [] => true
  | [], _ :: _ => false
  | c :: cs, p :: ps => if c = p then startsWithL cs ps else false

/-- Substring containment on character lists: does `s` contain `pat`? -/
def hasSubstrL : List Char → List Char → Bool
  | [], pat => pat.isEmpty
  | c :: cs, pat => startsWithL (c :: cs) pat || hasSubstrL cs pat

/-- JavaScript `s.includes(pat)`. -/
def jsIncludes (s pat : String) : Bool := hasSubstrL s.data pat.data

/-- JavaScript `Array.prototype.join(sep)`. -/
def joinSep (sep : String) : List String → String
  | [] => ""
  | [s] => s
  | s :: rest => s ++ sep ++ joinSep sep rest

/-- JavaScript `x || y` for an optional string value: `undefined` (missing
index) and `""` fall back to `y`. -/
def jsFallback (x : Option String) (y : String) : String :=
  match x with
  | none => y
  | some s => if s = "" then y else s

/-- JavaScript `arr.map((a, index) => f(index, a))`, carrying the element index. -/
def mapWithIndex (f : Nat → α → β) : Nat → List α → List β
  | _, [] => []
  | i, a :: rest => f i a :: mapWithIndex f (i + 1) rest

/- ===== Data model (src/types, part_001) ===== -/

/-- A credential record as stored/transmitted (`AccountItem`): the password
field is ciphertext at this layer. -/
structure AccountItem where
  rid : Nat
  website : String
  account : String
  password : String
deriving DecidableEq

/-- A table row (`AccountDataType`): an `AccountItem` plus the row key, with
the password decrypted for display. -/
structure AccountDataType where
  key : String
  rid : Nat
  website : String
  account : String
  password : String
deriving DecidableEq

/-- The persisted query cache (`CacheData`). -/
structure CacheData where
  username : String
  update_time : Nat
  accounts : List AccountItem
deriving DecidableEq

/-- Payload of a query response (`QueryResponseData`). -/
structure QueryResponseData where
  pull_mode : String
  update_time : Nat
  accounts : List AccountItem
deriving DecidableEq

/-- The generic API envelope (`ApiResponse<T>`). -/
structure ApiResponse (α : Type) where
  code : Int
  msg : String
  data : Option α := none
deriving DecidableEq

/-- Login response data (`LoginResponseData`). -/
structure LoginResponseData where
  token : String
deriving DecidableEq

/- ===== Tauri client wrappers (src/libs/tauri.ts) ===== -/

/-- A JavaScript exception value as classified by `getErrorMessage`:
an `Error` object carrying its `message`, a plain string, or anything else. -/
inductive JsError where
  | errObj (m : String)
  | str (s : String)
  | other
deriving DecidableEq

/-- The outcome of one `invoke` call: `.ok` when the promise resolves,
`.error` when it rejects. -/
abbrev Invoke (α : Type) := Except JsError α

/-- `getErrorMessage` from `src/libs/tauri.ts`. -/
def getErrorMessage : JsError → String
  | .errObj m => m
  | .str s => s
  | .other => "未知错误"

/-- `login` from `src/libs/tauri.ts`, as a function of the `invoke` outcome. -/
def login (inv : Invoke String) : ApiResponse LoginResponseData :=
  match inv with
  | .ok token => { code := 0, msg := "登录成功", data := some { token := token } }
  | .error e => { code := -1, msg := getErrorMessage e }

/-- `register` from `src/libs/tauri.ts`. -/
def register (inv : Invoke Unit) : ApiResponse Unit :=
  match inv with
  | .ok _ => { code := 0, msg := "注册成功" }
  | .error e => { code := -1, msg := getErrorMessage e }

/-- `queryAccounts` from `src/libs/tauri.ts`; `parse` models `JSON.parse`
(whose failure is caught by the same `catch`). -/
def queryAccounts (inv : Invoke String) (parse : String → Invoke CacheData) :
    ApiResponse QueryResponseData :=
  match inv with
  | .error e => { code := -1, msg := getErrorMessage e }
  | .ok result =>
    if result = "" ∨ result = "{}" then
      { code := 0, msg := "无数据",
        data := some { pull_mode := "PULL_NOTHING", update_time := 0, accounts := [] } }
    else
      match parse result with
      | .error e => { code := -1, msg := getErrorMessage e }
      | .ok d =>
        { code := 0, msg := "查询成功",
          data := some { pull_mode := "PULL_ALL", update_time := d.update_time,
                         accounts := d.accounts } }

/-- `insertAccount` from `src/libs/tauri.ts`. -/
def insertAccount (inv : Invoke Unit) : ApiResponse Unit :=
  match inv with
  | .ok _ => { code := 0, msg := "插入成功" }
  | .error e => { code := -1, msg := getErrorMessage e }

/-- `updateAccount` from `src/libs/tauri.ts`. -/
def updateAccount (inv : Invoke Unit) : ApiResponse Unit :=
  match inv with
  | .ok _ => { code := 0, msg := "更新成功" }
  | .error e => { code := -1, msg := getErrorMessage e }

/-- `deleteAccount` from `src/libs/tauri.ts`. -/
def deleteAccount (inv : Invoke Unit) : ApiResponse Unit :=
  match inv with
  | .ok _ => { code := 0, msg := "删除成功" }
  | .error e => { code := -1, msg := getErrorMessage e }

/- ===== Record projector: decryptAccounts (src/libs/tauri.ts) ===== -/

/-- `decryptAccounts` from `src/libs/tauri.ts`.  `decB` is the
`decrypt_batch` backend command (`none` = the batched call rejects).  The
first component is the projected list (`none` when the whole batch call
rejected, making the promise reject); the second component records the
argument list of every `decryptBatch` call issued, so that batching is
observable. -/
def decryptAccounts (decB : List String → Option (List String))
    (accounts : List AccountItem) : Option (List AccountItem) × List (List String) :=
  if accounts.length = 0 then (some [], [])
  else
    let passwords := accounts.map (fun acc => acc.password)
    match decB passwords with
    | none => (none, [passwords])
    | some decryptedPasswords =>
      (some (mapWithIndex
        (fun index acc => { acc with password := jsFallback decryptedPasswords[index]? acc.password })
        0 accounts), [passwords])

/- ===== Query component (part_007): cache-or-pull and search ===== -/

/-- Projection of a cached `AccountItem` to a table row, as written inline in
`loadFromCache` and `handleQuery` of the query component. -/
def toRow (acc : AccountItem) : AccountDataType :=
  { key := toString acc.rid, rid := acc.rid, website := jsTrim acc.website,
    account := acc.account, password := acc.password }

/-- `loadFromCache` (query component, part_007): returns whether the cache was
used and, if so, the rows displayed.  `loadRes` is the value
`api.loadQueryCache()` resolves to (`none` = `null`); a rejected decryption is
caught and reported as a cache miss. -/
def loadFromCache_q (loadRes : Option CacheData)
    (decB : List String → Option (List String)) : Bool × Option (List AccountDataType) :=
  match loadRes with
  | none => (false, none)
  | some cacheData =>
    if 0 < cacheData.accounts.length then
      match (decryptAccounts decB cacheData.accounts).1 with
      | none => (false, none)
      | some decryptedAccounts => (true, some (decryptedAccounts.map toRow))
    else (false, none)

/-- Observable outcome of `handleQuery` in the query component. -/
structure QueryTrace where
  servedFromCache : Bool
  remoteInvoked : Bool
  displayed : Option (List AccountDataType)
  errorShown : Bool
deriving DecidableEq

/-- `handleQuery` (query component, part_007).  `resp` is the value
`api.queryAccounts(forceRefresh)` resolves to when that call is made;
`remoteInvoked` records whether it was made. -/
def handleQuery_q (forceRefresh : Bool) (loadRes : Option CacheData)
    (decB : List String → Option (List String))
    (resp : ApiResponse QueryResponseData) : QueryTrace :=
  let errTrace : QueryTrace :=
    { servedFromCache := false, remoteInvoked := true, displayed := none, errorShown := true }
  let remote : QueryTrace :=
    if resp.code = 0 then
      match resp.data with
      | some responseData =>
        (match (decryptAccounts decB responseData.accounts).1 with
         | none => errTrace
         | some decryptedAccounts =>
           { servedFromCache := false, remoteInvoked := true,
             displayed := some (decryptedAccounts.map toRow), errorShown := false })
      | none => errTrace
    else errTrace
  if forceRefresh then remote
  else
    match loadFromCache_q loadRes decB with
    | (true, rows) =>
      { servedFromCache := true, remoteInvoked := false, displayed := rows, errorShown := false }
    | (false, _) => remote

/-- The filter body of `handleSearch` (query component, part_007) for one
record.  `pySyl` is the pinyin-syllable oracle (`toneType: "none"`,
`type: "array"`), `pyInit` the pinyin-initials oracle (`pattern: "initial"`);
`none` means the library call throws, which the surrounding `try`/`catch`
turns into "no pinyin strategy for this record". -/
def matchesKeyword (pySyl pyInit : String → Option (List String))
    (lowerKeyword : String) (item : AccountDataType) : Bool :=
  let website := jsToLower item.website
  if jsIncludes website lowerKeyword then true
  else
    match pySyl item.website with
    | none => false
    | some syllables =>
      let websitePinyin := joinSep "" syllables
      let websitePinyinWithSpace := joinSep " " syllables
      if jsIncludes (jsToLower websitePinyin) lowerKeyword
          || jsIncludes (jsToLower websitePinyinWithSpace) lowerKeyword then true
      else
        match pyInit item.website with
        | none => false
        | some initialLetters => jsIncludes (jsToLower (joinSep "" initialLetters)) lowerKeyword

/-- `.sort((a, b) => a.website.localeCompare(b.website))`.  `le` abstracts the
locale comparison: `le a b = true` stands for `a.localeCompare(b) <= 0`.
JavaScript's sort is stable, hence the stable insertion sort. -/
def sortByWebsite (le : String → String → Bool) (xs : List AccountDataType) :
    List AccountDataType :=
  List.insertionSort (fun a b => le a.website b.website = true) xs

/-- `handleSearch` (query component, part_007), as the pure function from the
keyword and the source rows to the filtered rows. -/
def handleSearch (le : String → String → Bool)
    (pySyl pyInit : String → Option (List String))
    (keyword : String) (sourceData : List AccountDataType) : List AccountDataType :=
  if jsIsBlank keyword then sortByWebsite le sourceData
  else if sourceData.isEmpty then []
  else
    sortByWebsite le (sourceData.filter (matchesKeyword pySyl pyInit (jsToLower keyword)))

/- ===== Mutation handlers and their forced-resync behaviour ===== -/

/-- The row produced by `form.validateFields()`. -/
structure RowData where
  website : String
  account : String
  password : String
deriving DecidableEq

/-- Observable effect of a mutation handler: whether the remote mutation call
was issued (and returned), and how many forced resyncs — `handleQuery(true)`
calls — were triggered before the handler finished. -/
structure MutationTrace where
  remoteInvoked : Bool
  forcedResyncs : Nat
deriving DecidableEq

/-- `save` (query component, part_007): the update path.  `validated` is the
`form.validateFields()` outcome (`none` = it threw), `originalRecord` the
`data.find(...)` result, `updateResp` the value `api.updateAccount(...)`
resolves to. -/
def save (validated : Option RowData) (originalRecord : Option AccountDataType)
    (updateResp : ApiResponse Unit) : MutationTrace :=
  match validated with
  | none => { remoteInvoked := false, forcedResyncs := 1 }
  | some _row =>
    match originalRecord with
    | none => { remoteInvoked := false, forcedResyncs := 0 }
    | some _orig =>
      if updateResp.code = 0 then { remoteInvoked := true, forcedResyncs := 1 }
      else { remoteInvoked := true, forcedResyncs := 1 }

/-- `handleDelete` (query component, part_007): `handleQuery(true)` is called
only in the `code === 0` branch. -/
def handleDelete (deleteResp : ApiResponse Unit) : MutationTrace :=
  if deleteResp.code = 0 then { remoteInvoked := true, forcedResyncs := 1 }
  else { remoteInvoked := true, forcedResyncs := 0 }

/-- `handleSubmit` of the insert form (part_010): no branch triggers a
resync — success only resets the form. -/
def handleSubmit (insertResp : ApiResponse Unit) : MutationTrace :=
  if insertResp.code = 0 then { remoteInvoked := true, forcedResyncs := 0 }
  else { remoteInvoked := true, forcedResyncs := 0 }

/- ===== Legacy query component (part_005): pull, cache write, update ===== -/

/-- A deserialized HTTP response body whose fields may be missing. -/
structure RawResponse (α : Type) where
  code : Option Int
  msg : Option String
  data : Option α := none
deriving DecidableEq

/-- `requestQuery` (legacy query component, part_005).  The oracle result
`.error em` models an axios rejection (collaborator unreachable or non-2xx
HTTP status) carrying the error message; missing `code`/`msg` fields raise
and are caught in the same function. -/
def requestQuery (resp : Except String (RawResponse QueryResponseData)) :
    ApiResponse QueryResponseData :=
  match resp with
  | .error em => { code := -1, msg := em }
  | .ok r =>
    match r.code, r.msg with
    | some c, some m => { code := c, msg := m, data := r.data }
    | _, _ => { code := -1, msg := "Invalid response format: missing required fields" }

/-- A cached account in the legacy variant carries the owner's username
(`getUsername()` result, `none` = `null`). -/
structure CachedAccount where
  rid : Nat
  website : String
  account : String
  password : String
  username : Option String
deriving DecidableEq

/-- The legacy cache content handed to `saveQueryCache`. -/
structure LegacyCacheData where
  update_time : Nat
  accounts : List CachedAccount
deriving DecidableEq

/-- Observable outcome of the legacy `handleQuery` pull. -/
structure LegacySyncTrace where
  newCache : Option LegacyCacheData
  saveInvoked : Bool
  errorShown : Bool
  displayed : Option (List AccountDataType)
deriving DecidableEq

/-- `handleQuery` (legacy query component, part_005), on the pull path
(forced refresh, or cache miss).  On success the pulled records are written
to the cache wholesale, re-read, and decrypted one by one for display
(`dec` is `tauriClient.decrypt`; `none` = rejection, which the outer `catch`
turns into an error message — after the cache write). -/
def handleQuery_legacy (resp : Except String (RawResponse QueryResponseData))
    (cache : Option LegacyCacheData) (username : Option String)
    (dec : String → Option String) : LegacySyncTrace :=
  let r := requestQuery resp
  if r.code = 0 then
    match r.data with
    | some responseData =>
      let cacheAccounts := responseData.accounts.map (fun account =>
        { rid := account.rid, website := account.website, account := account.account,
          password := account.password, username := username })
      let saved : LegacyCacheData :=
        { update_time := responseData.update_time, accounts := cacheAccounts }
      match saved.accounts.mapM (fun account => (dec account.password).map (fun p =>
          ({ key := toString account.rid, rid := account.rid, website := jsTrim account.website,
             account := account.account, password := p } : AccountDataType))) with
      | some rows =>
        { newCache := some saved, saveInvoked := true, errorShown := false,
          displayed := some rows }
      | none =>
        { newCache := some saved, saveInvoked := true, errorShown := true, displayed := none }
    | none => { newCache := cache, saveInvoked := false, errorShown := true, displayed := none }
  else { newCache := cache, saveInvoked := false, errorShown := true, displayed := none }

/-- The failure condition of a pull, as claimed: collaborator unreachable or
non-success HTTP status (axios rejection), or a payload missing the required
`code` or `msg` fields. -/
def isPullFailure (resp : Except String (RawResponse QueryResponseData)) : Bool :=
  match resp with
  | .error _ => true
  | .ok r => r.code.isNone || r.msg.isNone

/- ===== Mutation payload encryption (part_005 requestUpdate, part_009) ===== -/

/-- An update payload (`UpdateRequest`). -/
structure UpdateRequest where
  rid : Nat
  website : String
  account : String
  password : String
deriving DecidableEq

/-- An insert payload (`InsertRequest`). -/
structure InsertRequest where
  website : String
  account : String
  password : String
deriving DecidableEq

/-- The transmit step of `requestUpdate`: `apiClient.updateAccount(payload)`.
The first component is the payload that crossed to the remote collaborator. -/
def transmitUpdate (remote : UpdateRequest → Except String (RawResponse Unit))
    (payload : UpdateRequest) : Option UpdateRequest × ApiResponse Unit :=
  (some payload,
    match remote payload with
    | .error em => { code := -1, msg := em }
    | .ok r =>
      match r.code, r.msg with
      | some c, some m => { code := c, msg := m, data := some () }
      | _, _ => { code := -1, msg := "Invalid response format: missing required fields" })

/-- `requestUpdate` (legacy query component, part_005): the password is first
passed through `tauriClient.encrypt` (`enc`; `none` = rejection, caught) and
only the encrypted payload is handed to the remote collaborator. -/
def requestUpdate (enc : String → Option String)
    (remote : UpdateRequest → Except String (RawResponse Unit))
    (updateData : UpdateRequest) : Option UpdateRequest × ApiResponse Unit :=
  match enc updateData.password with
  | none => (none, { code := -1, msg := "更新失败" })
  | some encryptedPassword =>
    transmitUpdate remote
      { rid := updateData.rid, website := updateData.website,
        account := updateData.account, password := encryptedPassword }

/-- The transmit step of the insert request: `apiClient.post("/account", payload)`. -/
def transmitInsert (remote : InsertRequest → Except String (RawResponse Unit))
    (payload : InsertRequest) : Option InsertRequest × ApiResponse Unit :=
  (some payload,
    match remote payload with
    | .error em => { code := -1, msg := em }
    | .ok r =>
      match r.code, r.msg with
      | some c, some m => { code := c, msg := m, data := some () }
      | _, _ => { code := -1, msg := "Invalid response format: missing required fields" })

/-- `handleSubmit` of the insert form (part_009): `values.password` is
replaced by its encryption before `requestInsert` transmits the payload. -/
def handleSubmit_insert (enc : String → Option String)
    (remote : InsertRequest → Except String (RawResponse Unit))
    (values : InsertRequest) : Option InsertRequest × ApiResponse Unit :=
  match enc values.password with
  | none => (none, { code := -1, msg := "插入失败" })
  | some encryptedPassword =>
    transmitInsert remote { values with password := encryptedPassword }

/- ===== Owner-keyed snapshot store ===== -/

/-- Modelled from the spec: the owner-keyed snapshot store
(`saveSnapshot(owner, watermark, records)` / `loadSnapshot(owner)`, spec §4.2
and §6) is implemented by the Tauri Rust backend behind the
`save_query_cache` / `load_query_cache` commands and is not part of the
frontend sources; §4.2 requires storage keyed by `owner` so that `load` for a
different owner than the one stored returns absent.  A store is the list of
saves, most recent first. -/
abbrev SnapshotStore := List (String × Nat × List AccountItem)

/-- Modelled from the spec: `saveSnapshot(owner, watermark, records)` records
a snapshot under its owner. -/
def saveSnapshot (st : SnapshotStore) (owner : String) (watermark : Nat)
    (records : List AccountItem) : SnapshotStore :=
  (owner, watermark, records) :: st

/-- Modelled from the spec: `loadSnapshot(owner)` returns the most recent
snapshot stored for exactly that owner, absent otherwise. -/
def loadSnapshot (st : SnapshotStore) (owner : String) :
    Option (Nat × List AccountItem) :=
  match st with
  | [] => none
  | (o, wm, recs) :: rest => if o = owner then some (wm, recs) else loadSnapshot rest owner

/- ===== Spec-side predicates for the search engine ===== -/

/-- The three match strategies of spec §4.4, stated over the embedding:
(1) direct substring containment in the lowercased website; (2) containment
in the tone-stripped transliteration, compared both concatenated and
space-joined; (3) containment in the concatenated transliteration initials.
Strategies (2) and (3) require the corresponding transliteration call to
succeed; a record whose transliteration fails relies on strategy (1) alone. -/
def MatchSpec (pySyl pyInit : String → Option (List String))
    (lowerKeyword : String) (item : AccountDataType) : Prop :=
  lowerKeyword.data <:+: (jsToLower item.website).data
  ∨ (∃ syllables, pySyl item.website = some syllables ∧
      (lowerKeyword.data <:+: (jsToLower (joinSep "" syllables)).data
        ∨ lowerKeyword.data <:+: (jsToLower (joinSep " " syllables)).data))
  ∨ (∃ syllables initialLetters, pySyl item.website = some syllables ∧
      pyInit item.website = some initialLetters ∧
      lowerKeyword.data <:+: (jsToLower (joinSep "" initialLetters)).data)

/-- What the non-blank-keyword filter guarantees: the result is (a permutation
of) exactly the source records whose website matches the keyword — each record
is tested independently, so one record's transliteration failure cannot drop
any other record; the match predicate is the three-strategy disjunction and
never consults the `account` field; and the result is sorted ascending by
website under the locale order. -/
def SearchResultSpec (le : String → String → Bool)
    (pySyl pyInit : String → Option (List String))
    (keyword : String) (xs : List AccountDataType) : Prop :=
  (handleSearch le pySyl pyInit keyword xs).Perm
      (xs.filter (matchesKeyword pySyl pyInit (jsToLower keyword)))
  ∧ (∀ item, matchesKeyword pySyl pyInit (jsToLower keyword) item = true ↔
      MatchSpec pySyl pyInit (jsToLower keyword) item)
  ∧ (∀ item a, matchesKeyword pySyl pyInit (jsToLower keyword) { item with account := a }
      = matchesKeyword pySyl pyInit (jsToLower keyword) item)
  ∧ List.Pairwise (fun a b => le a.website b.website = true)
      (handleSearch le pySyl pyInit keyword xs)

/- ===== Concrete inputs used by the witnesses ===== -/

/-- Concrete syllable oracle: the transliteration of "银行" is ["yin", "hang"];
every other input throws. -/
def wSyl : String → Option (List String) :=
  fun w => if w = "银行" then some ["yin", "hang"] else none

/-- Concrete initials oracle: the initials of "银行" are ["y", "h"]. -/
def wInit : String → Option (List String) :=
  fun w => if w = "银行" then some ["y", "h"] else none

/-- Degenerate locale comparison (a total preorder). -/
def wLe : String → String → Bool := fun _ _ => true

/-- Two concrete table rows: one Chinese website, one Latin website. -/
def wRows : List AccountDataType :=
  [{ key := "1", rid := 1, website := "银行", account := "bob", password := "p1" },
   { key := "2", rid := 2, website := "abc", account := "eve", password := "p2" }]

/- ===== Helper lemmas ===== -/

theorem startsWithL_iff (s pat : List Char) : startsWithL s pat = true ↔ pat <+: s := by
  induction pat generalizing s with
  | nil => cases s <;> simp [startsWithL]
  | cons p ps ih =>
    cases s with
    | nil => simp [startsWithL]
    | cons c cs =>
      simp only [startsWithL, List.cons_prefix_cons]
      by_cases h : c = p
      · subst h
        simp [ih]
      · simp only [if_neg h, Bool.false_eq_true, false_iff]
        rintro ⟨rfl, -⟩
        exact h rfl

theorem hasSubstrL_iff (s pat : List Char) : hasSubstrL s pat = true ↔ pat <:+: s := by
  induction s with
  | nil =>
    simp [hasSubstrL, List.infix_nil, List.isEmpty_iff]
  | cons c cs ih =>
    simp [hasSubstrL, Bool.or_eq_true, startsWithL_iff, ih, List.infix_cons_iff]

theorem jsIncludes_iff (s pat : String) : jsIncludes s pat = true ↔ pat.data <:+: s.data :=
  hasSubstrL_iff s.data pat.data

theorem mapWithIndex_getElem? (f : Nat → α → β) (i j : Nat) (l : List α) :
    (mapWithIndex f i l)[j]? = (l[j]?).map (f (i + j)) := by
  induction l generalizing i j with
  | nil => simp [mapWithIndex]
  | cons a rest ih =>
    cases j with
    | zero => simp [mapWithIndex]
    | succ j =>
      have harith : i + 1 + j = i + (j + 1) := by omega
      simp [mapWithIndex, ih (i + 1) j, harith]

theorem mapWithIndex_length (f : Nat → α → β) (i : Nat) (l : List α) :
    (mapWithIndex f i l).length = l.length := by
  induction l generalizing i with
  | nil => rfl
  | cons a rest ih => simp [mapWithIndex, ih]

theorem sortByWebsite_perm (le : String → String → Bool) (xs : List AccountDataType) :
    (sortByWebsite le xs).Perm xs :=
  List.perm_insertionSort _ xs

theorem sortByWebsite_sorted (le : String → String → Bool)
    (htrans : ∀ a b c, le a b = true → le b c = true → le a c = true)
    (htotal : ∀ a b, le a b = true ∨ le b a = true) (xs : List AccountDataType) :
    List.Pairwise (fun a b => le a.website b.website = true) (sortByWebsite le xs) := by
  have h := @List.sorted_insertionSort AccountDataType
    (fun a b => le a.website b.website = true) _
    ⟨fun a b => htotal a.website b.website⟩
    ⟨fun a b c hab hbc => htrans a.website b.website c.website hab hbc⟩ xs
  exact h

theorem sortByWebsite_of_sorted (le : String → String → Bool) (xs : List AccountDataType)
    (h : List.Pairwise (fun a b => le a.website b.website = true) xs) :
    sortByWebsite le xs = xs :=
  List.Sorted.insertionSort_eq h

/- ===== Claim C1 ===== -/

/-- Claim C1, counterexample: the claim says every mutation triggers a forced
resync exactly once after the remote mutation call returns, regardless of the
reported code.  But the insert handler (part_010) performs no resync even on
success (`code = 0`), and the delete handler (part_007) performs no resync
when the reported code is non-zero. -/
theorem claim_C1_counterexample :
    (handleSubmit { code := 0, msg := "插入成功", data := none }).remoteInvoked = true
    ∧ (handleSubmit { code := 0, msg := "插入成功", data := none }).forcedResyncs = 0
    ∧ (handleDelete { code := 1, msg := "删除失败", data := none }).remoteInvoked = true
    ∧ (handleDelete { code := 1, msg := "删除失败", data := none }).forcedResyncs = 0 := by
  decide

/-- Claim C1, amended: the update handler (`save`) triggers the forced resync
exactly once after the remote update call returns, regardless of the reported
code (and also once when form validation throws, without any remote call);
the delete handler triggers it exactly once when the reported code is 0 and
not at all otherwise; the insert handler never triggers it. -/
theorem claim_C1_amended (row : RowData) (orig : AccountDataType) (u d i : ApiResponse Unit) :
    (save (some row) (some orig) u).remoteInvoked = true
    ∧ (save (some row) (some orig) u).forcedResyncs = 1
    ∧ (save none (some orig) u).forcedResyncs = 1
    ∧ save (some row) none u = { remoteInvoked := false, forcedResyncs := 0 }
    ∧ (handleDelete d).remoteInvoked = true
    ∧ (handleDelete d).forcedResyncs = (if d.code = 0 then 1 else 0)
    ∧ (handleSubmit i).remoteInvoked = true
    ∧ (handleSubmit i).forcedResyncs = 0 := by
  refine ⟨?_, ?_, rfl, rfl, ?_, ?_, ?_, ?_⟩ <;>
    by_cases h : d.code = 0 <;> by_cases h2 : u.code = 0 <;> by_cases h3 : i.code = 0 <;>
      simp [save, handleDelete, handleSubmit, h, h2, h3]

/- ===== Claim C8 ===== -/

/-- Claim C8: snapshot storage is keyed by owner — saving a snapshot for one
owner does not change what any other owner's load observes, and in
particular loading `owner1` when only a snapshot for `owner2 ≠ owner1` was
ever saved returns absent. -/
theorem claim_C8 (owner1 owner2 : String) (wm : Nat) (records : List AccountItem)
    (st : SnapshotStore) (h : owner1 ≠ owner2) :
    loadSnapshot (saveSnapshot st owner2 wm records) owner1 = loadSnapshot st owner1
    ∧ loadSnapshot (saveSnapshot [] owner2 wm records) owner1 = none := by
  have h2 : ¬ (owner2 = owner1) := fun hh => h hh.symm
  constructor <;> simp [saveSnapshot, loadSnapshot, h2]

/-- Claim C8, witness: after only `saveSnapshot("bob", ...)`,
`loadSnapshot("alice")` is absent. -/
theorem claim_C8_witness :
    ("alice" : String) ≠ "bob"
    ∧ (loadSnapshot (saveSnapshot [] "bob" 7 []) "alice" = loadSnapshot [] "alice"
        ∧ loadSnapshot (saveSnapshot [] "bob" 7 []) "alice" = none) :=
  ⟨by decide, claim_C8 "alice" "bob" 7 [] [] (by decide)⟩

/- ===== Claim C10 ===== -/

/-- Claim C10, counterexample: the claim says every failure is returned with a
non-empty human-readable message, but a rejection whose error value is the
empty string is returned with `code = -1` and an empty `msg`. -/
theorem claim_C10_counterexample :
    (login (Except.error (JsError.str ""))).code = -1
    ∧ (login (Except.error (JsError.str ""))).msg = "" := by
  decide

/-- Claim C10, amended: every account-facing wrapper is total in its error
channel — a rejected invocation is returned as a value with `code = -1` and
the message derived from the error by `getErrorMessage` (non-empty for
unknown errors, but equal — hence possibly empty — to the error's own text
for `Error`-object and string errors), and `code = 0` is returned only when
the underlying invocation succeeded. -/
theorem claim_C10_amended (e : JsError) (t : String) (parse : String → Invoke CacheData) :
    ((login (Except.error e)).code = -1 ∧ (login (Except.error e)).msg = getErrorMessage e)
    ∧ ((register (Except.error e)).code = -1 ∧ (register (Except.error e)).msg = getErrorMessage e)
    ∧ ((queryAccounts (Except.error e) parse).code = -1
        ∧ (queryAccounts (Except.error e) parse).msg = getErrorMessage e)
    ∧ ((insertAccount (Except.error e)).code = -1
        ∧ (insertAccount (Except.error e)).msg = getErrorMessage e)
    ∧ ((updateAccount (Except.error e)).code = -1
        ∧ (updateAccount (Except.error e)).msg = getErrorMessage e)
    ∧ ((deleteAccount (Except.error e)).code = -1
        ∧ (deleteAccount (Except.error e)).msg = getErrorMessage e)
    ∧ (login (Except.ok t)).code = 0
    ∧ (register (Except.ok ())).code = 0
    ∧ (insertAccount (Except.ok ())).code = 0
    ∧ (updateAccount (Except.ok ())).code = 0
    ∧ (deleteAccount (Except.ok ())).code = 0
    ∧ (queryAccounts (Except.ok "") parse).code = 0
    ∧ (queryAccounts (Except.ok "{}") parse).code = 0
    ∧ getErrorMessage JsError.other = "未知错误"
    ∧ getErrorMessage (JsError.errObj t) = t
    ∧ getErrorMessage (JsError.str t) = t := by
  refine ⟨⟨rfl, rfl⟩, ⟨rfl, rfl⟩, ⟨rfl, rfl⟩, ⟨rfl, rfl⟩, ⟨rfl, rfl⟩, ⟨rfl, rfl⟩,
    rfl, rfl, rfl, rfl, rfl, ?_, ?_, rfl, rfl, rfl⟩ <;> simp [queryAccounts]

/- ===== Claim C2 ===== -/

/-- Claim C2: when `handleQuery(false)` finds a non-empty cache snapshot that
loads (and decrypts) successfully, the result is served from the cache and
`api.queryAccounts` — the path to the remote collaborator — is never invoked
during the call. -/
theorem claim_C2 (cd : CacheData) (decB : List String → Option (List String))
    (resp : ApiResponse QueryResponseData) (dec : List AccountItem)
    (hne : cd.accounts ≠ [])
    (hdec : (decryptAccounts decB cd.accounts).1 = some dec) :
    handleQuery_q false (some cd) decB resp
      = { servedFromCache := true, remoteInvoked := false,
          displayed := some (dec.map toRow), errorShown := false } := by
  have hlen : 0 < cd.accounts.length := List.length_pos.mpr hne
  simp [handleQuery_q, loadFromCache_q, hlen, hdec]

/-- Claim C2, witness: a concrete one-record cache is served without any
remote invocation. -/
theorem claim_C2_witness :
    ({ username := "u", update_time := 5,
       accounts := [{ rid := 1, website := "w", account := "a", password := "ENC" }] } :
         CacheData).accounts ≠ []
    ∧ (decryptAccounts (fun _ => some ["plain"])
        ({ username := "u", update_time := 5,
           accounts := [{ rid := 1, website := "w", account := "a", password := "ENC" }] } :
             CacheData).accounts).1
        = some [{ rid := 1, website := "w", account := "a", password := "plain" }]
    ∧ handleQuery_q false
        (some { username := "u", update_time := 5,
                accounts := [{ rid := 1, website := "w", account := "a", password := "ENC" }] })
        (fun _ => some ["plain"]) { code := 0, msg := "", data := none }
      = { servedFromCache := true, remoteInvoked := false,
          displayed := some ([({ rid := 1, website := "w", account := "a",
                                 password := "plain" } : AccountItem)].map toRow),
          errorShown := false } :=
  ⟨by decide, by decide,
    claim_C2 _ _ _ _ (by decide) (by decide)⟩

/- ===== Claim C3 ===== -/

/-- Claim C3: when a pull fails — the remote collaborator is unreachable or
answers with a non-success HTTP status (an axios rejection), or its payload
is missing the required `code` or `msg` field — the legacy `handleQuery`
surfaces an error, does not invoke `saveQueryCache`, and leaves the cache
exactly as it was. -/
theorem claim_C3 (resp : Except String (RawResponse QueryResponseData))
    (cache : Option LegacyCacheData) (username : Option String)
    (dec : String → Option String) (h : isPullFailure resp = true) :
    (handleQuery_legacy resp cache username dec).newCache = cache
    ∧ (handleQuery_legacy resp cache username dec).saveInvoked = false
    ∧ (handleQuery_legacy resp cache username dec).errorShown = true := by
  rcases resp with em | r
  · refine ⟨?_, ?_, ?_⟩ <;> simp [handleQuery_legacy, requestQuery]
  · have hcm : r.code = none ∨ r.msg = none := by
      simp only [isPullFailure, Bool.or_eq_true, Option.isNone_iff_eq_none] at h
      exact h
    rcases hc : r.code with _ | c
    · refine ⟨?_, ?_, ?_⟩ <;> simp [handleQuery_legacy, requestQuery, hc]
    · rcases hm : r.msg with _ | m
      · refine ⟨?_, ?_, ?_⟩ <;> simp [handleQuery_legacy, requestQuery, hc, hm]
      · rcases hcm with hcm | hcm
        · rw [hc] at hcm; cases hcm
        · rw [hm] at hcm; cases hcm

/-- Claim C3, witness: a network rejection leaves a concrete cache untouched,
performs no save, and shows an error. -/
theorem claim_C3_witness :
    isPullFailure (Except.error "network unreachable") = true
    ∧ ((handleQuery_legacy (Except.error "network unreachable")
          (some { update_time := 3, accounts := [] }) (some "u") (fun _ => none)).newCache
        = some { update_time := 3, accounts := [] }
      ∧ (handleQuery_legacy (Except.error "network unreachable")
          (some { update_time := 3, accounts := [] }) (some "u") (fun _ => none)).saveInvoked
        = false
      ∧ (handleQuery_legacy (Except.error "network unreachable")
          (some { update_time := 3, accounts := [] }) (some "u") (fun _ => none)).errorShown
        = true) :=
  ⟨by decide, claim_C3 _ _ _ _ (by decide)⟩

/- ===== Claim C4 ===== -/

/-- Claim C4, counterexample: the claim quantifies over every sequence of
records, but for the empty sequence `decryptAccounts` returns immediately and
issues zero `decryptBatch` calls, not exactly one. -/
theorem claim_C4_counterexample :
    (decryptAccounts (fun ms => some ms) []).2.length = 0
    ∧ (decryptAccounts (fun ms => some ms) []).2.length ≠ 1 := by
  decide

/-- Claim C4, amended: for every non-empty sequence of N ciphertext records,
projection issues exactly one batched `decryptBatch` call whose argument list
is exactly the N password fields, and (when the batch succeeds) returns
exactly N records in the same order, position by position, with the
non-password fields unchanged; for the empty sequence no call is issued and
the empty list is returned. -/
theorem claim_C4_amended (decB : List String → Option (List String))
    (accounts : List AccountItem) (dec : List String)
    (hne : accounts ≠ [])
    (hdec : decB (accounts.map (fun a => a.password)) = some dec) :
    (decryptAccounts decB accounts).2 = [accounts.map (fun a => a.password)]
    ∧ ∃ out, (decryptAccounts decB accounts).1 = some out
        ∧ out.length = accounts.length
        ∧ ∀ j : Nat, out[j]?
            = (accounts[j]?).map (fun a => { a with password := jsFallback dec[j]? a.password }) := by
  have hlen : ¬ accounts.length = 0 := by
    simpa [List.length_eq_zero] using hne
  refine ⟨by simp [decryptAccounts, hlen, hdec], ?_⟩
  refine ⟨mapWithIndex (fun index acc =>
      { acc with password := jsFallback dec[index]? acc.password }) 0 accounts, ?_, ?_, ?_⟩
  · simp [decryptAccounts, hlen, hdec]
  · exact mapWithIndex_length _ 0 accounts
  · intro j
    have h := mapWithIndex_getElem?
      (fun index acc => { acc with password := jsFallback dec[index]? acc.password }) 0 j accounts
    rw [Nat.zero_add] at h
    exact h

/-- Claim C4, witness: one concrete record yields exactly one batch call with
exactly its password as input. -/
theorem claim_C4_witness :
    ([{ rid := 1, website := "w", account := "a", password := "E1" }] : List AccountItem) ≠ []
    ∧ (fun _ => some ["P1"] : List String → Option (List String))
        (([{ rid := 1, website := "w", account := "a", password := "E1" }] :
            List AccountItem).map (fun a => a.password)) = some ["P1"]
    ∧ ((decryptAccounts (fun _ => some ["P1"])
          [{ rid := 1, website := "w", account := "a", password := "E1" }]).2
        = [[("E1" : String)]]
      ∧ ∃ out, (decryptAccounts (fun _ => some ["P1"])
            [{ rid := 1, website := "w", account := "a", password := "E1" }]).1 = some out
          ∧ out.length = ([{ rid := 1, website := "w", account := "a", password := "E1" }] :
              List AccountItem).length
          ∧ ∀ j : Nat, out[j]?
              = (([{ rid := 1, website := "w", account := "a", password := "E1" }] :
                  List AccountItem)[j]?).map
                  (fun a => { a with password := jsFallback ["P1"][j]? a.password })) :=
  ⟨by decide, by decide, claim_C4_amended _ _ _ (by decide) (by decide)⟩

/- ===== Claim C5 ===== -/

/-- Claim C5: when the batched decryption resolves, no record is dropped (the
output has the same length), every output record keeps its non-password
fields and carries `jsFallback` of its decryption result over its original
ciphertext — and `jsFallback` substitutes the original ciphertext exactly
when the per-record result is missing or empty, so a failed or empty
decryption shows the ciphertext while the rest of the list is still
projected. -/
theorem claim_C5 (decB : List String → Option (List String))
    (accounts : List AccountItem) (dec : List String)
    (hdec : decB (accounts.map (fun a => a.password)) = some dec) :
    ∃ out, (decryptAccounts decB accounts).1 = some out
      ∧ out.length = accounts.length
      ∧ (∀ j : Nat, out[j]?
          = (accounts[j]?).map (fun a => { a with password := jsFallback dec[j]? a.password }))
      ∧ (∀ y, jsFallback none y = y)
      ∧ (∀ y, jsFallback (some "") y = y)
      ∧ (∀ s y, jsFallback (some s) y = if s = "" then y else s) := by
  by_cases hlen : accounts.length = 0
  · have : accounts = [] := List.length_eq_zero.mp hlen
    subst this
    exact ⟨[], by simp [decryptAccounts], rfl, fun j => by simp, fun y => rfl, fun y => rfl,
      fun s y => rfl⟩
  · refine ⟨mapWithIndex (fun index acc =>
        { acc with password := jsFallback dec[index]? acc.password }) 0 accounts, ?_, ?_, ?_,
        fun y => rfl, fun y => rfl, fun s y => rfl⟩
    · simp [decryptAccounts, hlen, hdec]
    · exact mapWithIndex_length _ 0 accounts
    · intro j
      have h := mapWithIndex_getElem?
        (fun index acc => { acc with password := jsFallback dec[index]? acc.password }) 0 j accounts
      rw [Nat.zero_add] at h
      exact h

/-- Claim C5, witness: in a concrete two-record batch whose first decryption
comes back empty, the first record keeps its ciphertext as the visible value
and the second record is still decrypted — neither disappears. -/
theorem claim_C5_witness :
    (fun _ => some ["", "P2"] : List String → Option (List String))
        (([{ rid := 1, website := "w", account := "a", password := "E1" },
           { rid := 2, website := "v", account := "b", password := "E2" }] :
            List AccountItem).map (fun a => a.password)) = some ["", "P2"]
    ∧ (∃ out, (decryptAccounts (fun _ => some ["", "P2"])
          [{ rid := 1, website := "w", account := "a", password := "E1" },
           { rid := 2, website := "v", account := "b", password := "E2" }]).1 = some out
        ∧ out.length = ([{ rid := 1, website := "w", account := "a", password := "E1" },
             { rid := 2, website := "v", account := "b", password := "E2" }] :
              List AccountItem).length
        ∧ (∀ j : Nat, out[j]?
            = (([{ rid := 1, website := "w", account := "a", password := "E1" },
                 { rid := 2, website := "v", account := "b", password := "E2" }] :
                  List AccountItem)[j]?).map
                (fun a => { a with password := jsFallback ["", "P2"][j]? a.password }))
        ∧ (∀ y, jsFallback none y = y)
        ∧ (∀ y, jsFallback (some "") y = y)
        ∧ (∀ s y, jsFallback (some s) y = if s = "" then y else s))
    ∧ (decryptAccounts (fun _ => some ["", "P2"])
          [{ rid := 1, website := "w", account := "a", password := "E1" },
           { rid := 2, website := "v", account := "b", password := "E2" }]).1
        = some [{ rid := 1, website := "w", account := "a", password := "E1" },
                { rid := 2, website := "v", account := "b", password := "P2" }] :=
  ⟨by decide, claim_C5 _ _ _ (by decide), by decide⟩

/- ===== Claim C9 ===== -/

/-- Claim C9: for update and insert, the payload handed to the remote
collaborator carries exactly the `encryptOne` image of the user's plaintext
password (all other fields unchanged); under the hypothesis that the
ciphertext differs from the plaintext, the transmitted password field is
never the plaintext — and when encryption fails, no payload is transmitted
at all. -/
theorem claim_C9 (enc : String → Option String)
    (remoteU : UpdateRequest → Except String (RawResponse Unit))
    (remoteI : InsertRequest → Except String (RawResponse Unit))
    (u : UpdateRequest) (v : InsertRequest) (cu ci : String)
    (hencu : enc u.password = some cu) (henci : enc v.password = some ci)
    (hneu : cu ≠ u.password) (hnei : ci ≠ v.password) :
    (requestUpdate enc remoteU u).1
      = some { rid := u.rid, website := u.website, account := u.account, password := cu }
    ∧ (handleSubmit_insert enc remoteI v).1
      = some { website := v.website, account := v.account, password := ci }
    ∧ ((requestUpdate enc remoteU u).1.map (fun p => p.password)) ≠ some u.password
    ∧ ((handleSubmit_insert enc remoteI v).1.map (fun p => p.password)) ≠ some v.password
    ∧ (∀ remote2 : UpdateRequest → Except String (RawResponse Unit),
        (requestUpdate (fun _ => none) remote2 u).1 = none)
    ∧ (∀ remote2 : InsertRequest → Except String (RawResponse Unit),
        (handleSubmit_insert (fun _ => none) remote2 v).1 = none) := by
  have h1 : (requestUpdate enc remoteU u).1
      = some { rid := u.rid, website := u.website, account := u.account, password := cu } := by
    unfold requestUpdate
    rw [hencu]
    rfl
  have h2 : (handleSubmit_insert enc remoteI v).1
      = some { website := v.website, account := v.account, password := ci } := by
    unfold handleSubmit_insert
    rw [henci]
    rfl
  refine ⟨h1, h2, ?_, ?_, fun remote2 => rfl, fun remote2 => rfl⟩
  · rw [h1]
    simpa using hneu
  · rw [h2]
    simpa using hnei

/-- Claim C9, witness: a concrete update and insert transmit the encrypted
password, not the plaintext. -/
theorem claim_C9_witness :
    (fun s => some ("E" ++ s) : String → Option String)
        ({ rid := 1, website := "w", account := "a", password := "pw" } : UpdateRequest).password
      = some "Epw"
    ∧ (fun s => some ("E" ++ s) : String → Option String)
        ({ website := "x", account := "b", password := "qw" } : InsertRequest).password
      = some "Eqw"
    ∧ ("Epw" : String) ≠ "pw"
    ∧ ("Eqw" : String) ≠ "qw"
    ∧ ((requestUpdate (fun s => some ("E" ++ s)) (fun _ => Except.error "down")
          { rid := 1, website := "w", account := "a", password := "pw" }).1
        = some { rid := 1, website := "w", account := "a", password := "Epw" }
      ∧ (handleSubmit_insert (fun s => some ("E" ++ s)) (fun _ => Except.error "down")
          { website := "x", account := "b", password := "qw" }).1
        = some { website := "x", account := "b", password := "Eqw" }
      ∧ ((requestUpdate (fun s => some ("E" ++ s)) (fun _ => Except.error "down")
          { rid := 1, website := "w", account := "a", password := "pw" }).1.map
            (fun p => p.password)) ≠ some "pw"
      ∧ ((handleSubmit_insert (fun s => some ("E" ++ s)) (fun _ => Except.error "down")
          { website := "x", account := "b", password := "qw" }).1.map
            (fun p => p.password)) ≠ some "qw"
      ∧ (∀ remote2 : UpdateRequest → Except String (RawResponse Unit),
          (requestUpdate (fun _ => none) remote2
            { rid := 1, website := "w", account := "a", password := "pw" }).1 = none)
      ∧ (∀ remote2 : InsertRequest → Except String (RawResponse Unit),
          (handleSubmit_insert (fun _ => none) remote2
            { website := "x", account := "b", password := "qw" }).1 = none)) :=
  ⟨by decide, by decide, by decide, by decide,
    claim_C9 _ _ _ _ _ _ _ (by decide) (by decide) (by decide) (by decide)⟩

/- ===== Claims C6 and C7: the search/filter engine ===== -/

theorem bor_eq_true (a b : Bool) : (a || b) = true ↔ a = true ∨ b = true := by
  cases a <;> cases b <;> simp

theorem matchesKeyword_iff (pySyl pyInit : String → Option (List String))
    (k : String) (item : AccountDataType) :
    matchesKeyword pySyl pyInit k item = true ↔ MatchSpec pySyl pyInit k item := by
  by_cases h1 : jsIncludes (jsToLower item.website) k = true
  · have hlhs : matchesKeyword pySyl pyInit k item = true := by
      unfold matchesKeyword
      simp [h1]
    rw [hlhs]
    constructor
    · intro _
      exact Or.inl ((jsIncludes_iff _ _).mp h1)
    · intro _
      rfl
  · rcases hsy : pySyl item.website with _ | syllables
    · have hlhs : matchesKeyword pySyl pyInit k item = false := by
        unfold matchesKeyword
        simp [h1, hsy]
      rw [hlhs]
      simp only [Bool.false_eq_true, false_iff]
      rintro (hc | ⟨syl, hsome, -⟩ | ⟨syl, ini, hsome, -, -⟩)
      · exact h1 ((jsIncludes_iff _ _).mpr hc)
      · rw [hsy] at hsome
        cases hsome
      · rw [hsy] at hsome
        cases hsome
    · by_cases h2 : (jsIncludes (jsToLower (joinSep "" syllables)) k
          || jsIncludes (jsToLower (joinSep " " syllables)) k) = true
      · have hlhs : matchesKeyword pySyl pyInit k item = true := by
          unfold matchesKeyword
          simp only [hsy]
          simp [h1, h2]
        rw [hlhs]
        constructor
        · intro _
          rcases (bor_eq_true _ _).mp h2 with hh | hh
          · exact Or.inr (Or.inl ⟨syllables, hsy, Or.inl ((jsIncludes_iff _ _).mp hh)⟩)
          · exact Or.inr (Or.inl ⟨syllables, hsy, Or.inr ((jsIncludes_iff _ _).mp hh)⟩)
        · intro _
          rfl
      · rcases hin : pyInit item.website with _ | initialLetters
        · have hlhs : matchesKeyword pySyl pyInit k item = false := by
            unfold matchesKeyword
            simp only [hsy]
            simp [h1, h2, hin]
          rw [hlhs]
          simp only [Bool.false_eq_true, false_iff]
          rintro (hc | ⟨syl, hsome, hor⟩ | ⟨syl, ini, -, hsome, -⟩)
          · exact h1 ((jsIncludes_iff _ _).mpr hc)
          · rw [hsy] at hsome
            injection hsome with he
            subst he
            rcases hor with hh | hh
            · exact h2 ((bor_eq_true _ _).mpr (Or.inl ((jsIncludes_iff _ _).mpr hh)))
            · exact h2 ((bor_eq_true _ _).mpr (Or.inr ((jsIncludes_iff _ _).mpr hh)))
          · rw [hin] at hsome
            cases hsome
        · have hlhs : matchesKeyword pySyl pyInit k item
              = jsIncludes (jsToLower (joinSep "" initialLetters)) k := by
            unfold matchesKeyword
            simp only [hsy]
            simp [h1, h2, hin]
          rw [hlhs]
          constructor
          · intro h3
            exact Or.inr (Or.inr ⟨syllables, initialLetters, hsy, hin,
              (jsIncludes_iff _ _).mp h3⟩)
          · rintro (hc | ⟨syl, hsome, hor⟩ | ⟨syl, ini, -, hsome2, hc⟩)
            · exact absurd ((jsIncludes_iff _ _).mpr hc) h1
            · rw [hsy] at hsome
              injection hsome with he
              subst he
              rcases hor with hh | hh
              · exact absurd ((bor_eq_true _ _).mpr (Or.inl ((jsIncludes_iff _ _).mpr hh))) h2
              · exact absurd ((bor_eq_true _ _).mpr (Or.inr ((jsIncludes_iff _ _).mpr hh))) h2
            · rw [hin] at hsome2
              injection hsome2 with he
              subst he
              exact (jsIncludes_iff _ _).mpr hc

/-- Claim C6: for a non-blank keyword, the filter keeps (a sorted permutation
of) exactly those records whose website matches the keyword case-insensitively
under one of the three strategies — direct substring containment, containment
in the tone-stripped transliteration (concatenated or space-joined), or
containment in the concatenated transliteration initials; the match predicate
never consults the `account` field, each record is tested independently (so a
transliteration failure affects only its own record, which falls back to
strategy 1), and the result is sorted ascending by website. -/
theorem claim_C6 (le : String → String → Bool)
    (pySyl pyInit : String → Option (List String))
    (htrans : ∀ a b c, le a b = true → le b c = true → le a c = true)
    (htotal : ∀ a b, le a b = true ∨ le b a = true)
    (keyword : String) (hk : jsIsBlank keyword = false) (xs : List AccountDataType) :
    SearchResultSpec le pySyl pyInit keyword xs := by
  have hkb : ¬ (jsIsBlank keyword = true) := by simp [hk]
  refine ⟨?_, ?_, ?_, ?_⟩
  · by_cases hxs : xs.isEmpty = true
    · have hnil : xs = [] := by simpa using hxs
      subst hnil
      simp [handleSearch, hkb]
    · have hres : handleSearch le pySyl pyInit keyword xs
          = sortByWebsite le (xs.filter (matchesKeyword pySyl pyInit (jsToLower keyword))) := by
        simp [handleSearch, hkb, hxs]
      rw [hres]
      exact sortByWebsite_perm le _
  · intro item
    exact matchesKeyword_iff pySyl pyInit (jsToLower keyword) item
  · intro item a
    rfl
  · by_cases hxs : xs.isEmpty = true
    · have hnil : xs = [] := by simpa using hxs
      subst hnil
      simp [handleSearch, hkb]
    · have hres : handleSearch le pySyl pyInit keyword xs
          = sortByWebsite le (xs.filter (matchesKeyword pySyl pyInit (jsToLower keyword))) := by
        simp [handleSearch, hkb, hxs]
      rw [hres]
      exact sortByWebsite_sorted le htrans htotal _

/-- Claim C6, witness: with concrete oracles under which the transliteration
of "银行" has syllables ["yin", "hang"] and initials ["y", "h"] (and every
other transliteration throws), the keyword "yh" keeps exactly the "银行"
record via the initials strategy even though no substring match exists, while
the record with website "abc" — whose transliteration throws — is filtered by
strategy 1 alone and the rest of the set is still processed. -/
theorem claim_C6_witness :
    jsIsBlank "yh" = false
    ∧ SearchResultSpec wLe wSyl wInit "yh" wRows
    ∧ handleSearch wLe wSyl wInit "yh" wRows
        = [{ key := "1", rid := 1, website := "银行", account := "bob", password := "p1" }] :=
  ⟨by decide,
    claim_C6 wLe wSyl wInit (fun _ _ _ _ _ => rfl) (fun _ _ => Or.inl rfl) "yh" (by decide) wRows,
    by decide⟩

/-- Claim C7: filtering is idempotent — filtering an already-filtered result
with the same keyword returns it unchanged — and for a blank (empty or
whitespace-only) keyword the filter returns all input records, sorted
ascending by website under the (total, transitive) locale order rather than
in input order. -/
theorem claim_C7 (le : String → String → Bool)
    (pySyl pyInit : String → Option (List String))
    (htrans : ∀ a b c, le a b = true → le b c = true → le a c = true)
    (htotal : ∀ a b, le a b = true ∨ le b a = true)
    (k kb : String) (hkb : jsIsBlank kb = true) (xs ys : List AccountDataType) :
    handleSearch le pySyl pyInit k (handleSearch le pySyl pyInit k xs)
      = handleSearch le pySyl pyInit k xs
    ∧ (handleSearch le pySyl pyInit kb ys).Perm ys
    ∧ List.Pairwise (fun a b => le a.website b.website = true)
        (handleSearch le pySyl pyInit kb ys) := by
  have hsorted := sortByWebsite_sorted le htrans htotal
  have hblank : handleSearch le pySyl pyInit kb ys = sortByWebsite le ys := by
    simp [handleSearch, hkb]
  refine ⟨?_, ?_, ?_⟩
  · by_cases hbl : jsIsBlank k = true
    · have h1 : ∀ zs, handleSearch le pySyl pyInit k zs = sortByWebsite le zs := fun zs => by
        simp [handleSearch, hbl]
      rw [h1, h1, sortByWebsite_of_sorted le _ (hsorted xs)]
    · by_cases hxs : xs.isEmpty = true
      · have hnil : xs = [] := by simpa using hxs
        subst hnil
        simp [handleSearch, hbl]
      · have hres : handleSearch le pySyl pyInit k xs
            = sortByWebsite le (xs.filter (matchesKeyword pySyl pyInit (jsToLower k))) := by
          simp [handleSearch, hbl, hxs]
        rw [hres]
        set p := matchesKeyword pySyl pyInit (jsToLower k) with hp
        by_cases hre : (sortByWebsite le (xs.filter p)).isEmpty = true
        · have hnil : sortByWebsite le (xs.filter p) = [] := by simpa using hre
          rw [hnil]
          simp [handleSearch, hbl]
        · have hfil : (sortByWebsite le (xs.filter p)).filter p
              = sortByWebsite le (xs.filter p) := by
            apply List.filter_eq_self.mpr
            intro a ha
            exact List.of_mem_filter ((sortByWebsite_perm le (xs.filter p)).subset ha)
          have hstep : handleSearch le pySyl pyInit k (sortByWebsite le (xs.filter p))
              = sortByWebsite le ((sortByWebsite le (xs.filter p)).filter p) := by
            simp [handleSearch, hbl, hre, hp]
          rw [hstep, hfil, sortByWebsite_of_sorted le _ (hsorted (xs.filter p))]
  · rw [hblank]
    exact sortByWebsite_perm le ys
  · rw [hblank]
    exact hsorted ys

/-- Claim C7, witness: idempotence at the concrete keyword "yh" and the
blank-keyword behaviour at the whitespace keyword " ", over the concrete
two-record set. -/
theorem claim_C7_witness :
    jsIsBlank " " = true
    ∧ (handleSearch wLe wSyl wInit "yh" (handleSearch wLe wSyl wInit "yh" wRows)
        = handleSearch wLe wSyl wInit "yh" wRows
      ∧ (handleSearch wLe wSyl wInit " " wRows).Perm wRows
      ∧ List.Pairwise (fun a b => wLe a.website b.website = true)
          (handleSearch wLe wSyl wInit " " wRows)) :=
  ⟨by decide,
    claim_C7 wLe wSyl wInit (fun _ _ _ _ _ => rfl) (fun _ _ => Or.inl rfl) "yh" " "
      (by decide) wRows wRows⟩
